import Mathlib

/-!
Shallow embedding of the ComfyUI metadata extraction engine
(`src/unnamed/part_001`: `extractPrompts` / `resolveInput` / `parsePNG` /
`parseMP4`).  JSON values are modelled by the inductive `Jv` (with a
distinguished `undefined` for JavaScript's `undefined`, produced by missing
property accesses).  JavaScript runtime behaviour relevant to the source is
modelled explicitly: property access on `null`/`undefined` throws
(`Halt.exn`), truthiness, `typeof`, string keys of objects with the
integer-like-keys-first iteration order, and `Set`-based visited tracking.
Unbounded recursion in `resolveInput` is modelled with an explicit fuel
parameter; `Halt.noFuel` marks a computation that exceeds every finite
recursion depth, i.e. one that the source program would never complete.
Machine strings are Lean `String`s (the inputs of interest are ASCII; the
permissive UTF-8 decode of the source is modelled byte-for-byte on ASCII).
Numbers are modelled as `Int`: every number appearing in the claims is an
integer.
-/

inductive Jv where
  | null : Jv
  | undefined : Jv
  | bool : Bool → Jv
  | num : Int → Jv
  | str : String → Jv
  | arr : List Jv → Jv
  | obj : List (String × Jv) → Jv

/-- Outcomes that abort the resolver: a thrown JavaScript exception
(`TypeError` from a property access on `null`/`undefined`, or
`TypeError` from `toLowerCase` on a non-string), or exhaustion of the
recursion fuel (marking divergence of the unbounded source recursion). -/
inductive Halt where
  | exn : Halt
  | noFuel : Halt
deriving DecidableEq

/-- JavaScript truthiness of a modelled value. -/
def jsTruthy : Jv → Bool
  | .null => false
  | .undefined => false
  | .bool b => b
  | .num n => n ≠ 0
  | .str s => s ≠ ("")
  | .arr _ => true
  | .obj _ => true

def isArrB : Jv → Bool
  | .arr _ => true
  | _ => false

def isStrB : Jv → Bool
  | .str _ => true
  | _ => false

/-- Model of JavaScript `typeof v === 'object'` (true for objects, arrays
and `null`). -/
def typeofObjB : Jv → Bool
  | .obj _ => true
  | .arr _ => true
  | .null => true
  | _ => false

def digitChar (n : Nat) : Char := Char.ofNat (48 + n)

/-- Kernel-reducible decimal rendering of a natural number. -/
def natDigits : Nat → Nat → List Char
  | 0, _ => []
  | f + 1, n =>
    if n < 10 then [digitChar n]
    else natDigits f (n / 10) ++ [digitChar (n % 10)]

def natRepr (n : Nat) : String := String.mk (natDigits (n + 1) n)

def intRepr (n : Int) : String :=
  if n < 0 then ("-") ++ natRepr (-n).toNat else natRepr n.toNat

def charDigit? (c : Char) : Option Nat :=
  if 48 ≤ c.toNat ∧ c.toNat ≤ 57 then some (c.toNat - 48) else none

def digitsToNat? : List Char → Option Nat → Option Nat
  | [], acc => acc
  | c :: cs, acc =>
    match charDigit? c, acc with
    | some d, some a => digitsToNat? cs (some (a * 10 + d))
    | some d, none => digitsToNat? cs (some d)
    | none, _ => none

/-- Canonical-integer test used by the JavaScript own-property iteration
order: a key is integer-like when it is the decimal rendering of a natural
number. -/
def intLikeKey (s : String) : Option Nat :=
  match digitsToNat? s.data none with
  | some n => if natRepr n = s then some n else none
  | none => none

/-- Model of `ToPropertyKey` / `String(v)` for the values the source uses
as object keys (node ids from links and from `node.id`). -/
def keyToString : Jv → String
  | .str s => s
  | .num n => intRepr n
  | .bool b => if b then ("true") else ("false")
  | .null => ("null")
  | .undefined => ("undefined")
  | .arr _ => ("")
  | .obj _ => ("[object Object]")

/-- Tag-encoded identity of a primitive value, used to model membership in
a JavaScript `Set` (SameValueZero on the primitives the source stores). -/
def svKey : Jv → String
  | .str s => ("s:") ++ s
  | .num n => ("n:") ++ intRepr n
  | .bool b => if b then ("b:1") else ("b:0")
  | .null => ("null")
  | .undefined => ("undefined")
  | .arr _ => ("a:")
  | .obj _ => ("o:")

/-- First-occurrence de-duplication (the semantics of
`[...new Set(xs)]`), with an accumulator of already-seen elements. -/
def dedupFirstAux (seen : List String) : List String → List String
  | [] => []
  | x :: xs =>
    if x ∈ seen then dedupFirstAux seen xs
    else x :: dedupFirstAux (x :: seen) xs

def dedupFirst (l : List String) : List String := dedupFirstAux [] l

/-- Insertion of a key into a list sorted ascending by `intLikeKey` value. -/
def insertByNat (k : String) (n : Nat) : List (String × Nat) → List (String × Nat)
  | [] => [(k, n)]
  | (k', n') :: rest =>
    if n < n' then (k, n) :: (k', n') :: rest
    else (k', n') :: insertByNat k n rest

def sortIntKeys : List (String × Nat) → List (String × Nat)
  | [] => []
  | (k, n) :: rest => insertByNat k n (sortIntKeys rest)

/-- Own enumerable keys of a value in JavaScript iteration order:
integer-like keys ascending, then the remaining string keys in insertion
order.  Strings enumerate their character indices; primitives have none. -/
def jsOwnKeys : Jv → List String
  | .obj fs =>
    let ks := dedupFirst (fs.map (·.1))
    let withInt := ks.filterMap (fun k => (intLikeKey k).map (fun n => (k, n)))
    let rest := ks.filter (fun k => intLikeKey k = none)
    (sortIntKeys withInt).map (·.1) ++ rest
  | .arr xs => (List.range xs.length).map natRepr
  | .str s => (List.range s.length).map natRepr
  | _ => []

/-- Property read on a non-`null`, non-`undefined` value (total: a missing
property is `undefined`, as in JavaScript). -/
def jsIndexGet (v : Jv) (k : String) : Jv :=
  match v with
  | .obj fs =>
    match fs.find? (fun p => p.1 = k) with
    | some p => p.2
    | none => .undefined
  | .arr xs =>
    match intLikeKey k with
    | some n => match xs.get? n with | some x => x | none => .undefined
    | none => .undefined
  | .str s =>
    match intLikeKey k with
    | some n =>
      match s.data.get? n with
      | some c => .str (String.mk [c])
      | none => .undefined
    | none => .undefined
  | _ => .undefined

/-- Property read with the JavaScript throwing behaviour: reading a
property of `null` or `undefined` raises a `TypeError`. -/
def getF (v : Jv) (k : String) : Except Halt Jv :=
  match v with
  | .null => .error .exn
  | .undefined => .error .exn
  | _ => .ok (jsIndexGet v k)

/-- Own enumerable values in iteration order (`Object.values`). -/
def jsOwnValues (v : Jv) : List Jv := (jsOwnKeys v).map (jsIndexGet v)

/-- Model of `v1 || v2` restricted to returning the chosen value. -/
def jsOrV (a b : Jv) : Jv := if jsTruthy a then a else b

/-- Model of `str.toLowerCase()`: throws unless the receiver is a string
(ASCII lowering; the source's class names are ASCII). -/
def jsToLower (v : Jv) : Except Halt String :=
  match v with
  | .str s => .ok (String.mk (s.data.map Char.toLower))
  | _ => .error .exn

def listPrefixB : List Char → List Char → Bool
  | [], _ => true
  | _ :: _, [] => false
  | a :: as, b :: bs => a = b && listPrefixB as bs

def listInfixB (needle : List Char) : List Char → Bool
  | [] => needle.isEmpty
  | c :: cs => listPrefixB needle (c :: cs) || listInfixB needle cs

/-- Contiguous-substring test, the model of JavaScript
`haystack.includes(needle)`. -/
def substrB (needle hay : String) : Bool :=
  listInfixB needle.data hay.data

/-- JavaScript string truthiness of an `Option String` result of
`resolveInput` (`null` and the empty string are falsy). -/
def optTruthy : Option String → Bool
  | some s => s ≠ ("")
  | none => false

/-- Whitespace trim modelling `String.prototype.trim` on the characters
that occur in this development. -/
def jsTrim (s : String) : String :=
  String.mk ((s.data.dropWhile Char.isWhitespace).reverse.dropWhile Char.isWhitespace |>.reverse)

/-- Model of `cleanText` (src/unnamed/part_001 lines 6-9). -/
def cleanText (s : String) : String :=
  if s = ("") then ("") else jsTrim s

/-- Insert-or-overwrite for the node map (`nodesMap[key] = node`): an
existing key keeps its position, a new key is appended. -/
def upsert : List (String × Jv) → String → Jv → List (String × Jv)
  | [], k, v => [(k, v)]
  | (k', v') :: rest, k, v =>
    if k' = k then (k, v) :: rest else (k', v') :: upsert rest k v

/-- Node-map lookup `nodesMap[sourceId]` (property key coercion applied by
the caller). -/
def mapGet (m : List (String × Jv)) (k : String) : Jv :=
  match m.find? (fun p => p.1 = k) with
  | some p => p.2
  | none => .undefined

/-- Membership update of the modelled visited `Set`
(`new Set([...visited, sourceId])`). -/
def visAdd (visited : List String) (k : String) : List String :=
  if visited.contains k then visited else visited ++ [k]

/-- The fixed priority list of text-bearing input names
(src/unnamed/part_001 lines 48-52). -/
def TEXT_INPUT_KEYS : List String :=
  [("text"), ("text_g"), ("text_l"), ("string"), ("prompt"), ("value"),
   ("input_text"), ("string_field"), ("text_positive"), ("text_negative"),
   ("text_a"), ("text_b"), ("positive"), ("negative"), ("caption"), ("tag"),
   ("tags"), ("description"), ("message"), ("t5xxl"), ("clip_l")]

/-- Model of the aggressive text-key scan over a source node's `inputs`
(part_001 lines 82-87): first key of the priority list whose value is a
string of length greater than one. -/
def firstTextKey (sourceNode : Jv) : List String → Option String
  | [] => none
  | k :: ks =>
    let inputsv := jsIndexGet sourceNode ("inputs")
    let iv := if jsTruthy inputsv then jsIndexGet inputsv k else .undefined
    match iv with
    | .str s => if s.data.length > 1 then some s else firstTextKey sourceNode ks
    | _ => firstTextKey sourceNode ks

/-- Short-circuiting `a || b` over resolver results: the thunk `b` is only
forced when `a` succeeds with a falsy value (`null` or the empty string). -/
def jsOrRes (a : Except Halt (Option String)) (b : Unit → Except Halt (Option String)) :
    Except Halt (Option String) :=
  match a with
  | .error e => .error e
  | .ok v => if optTruthy v then .ok v else b ()

/-- Model of the pass-through loop `for (const key of keys) { const res =
resolveInput(...); if (res) return res; }`: first truthy result wins,
`.ok none` means the loop fell through. -/
def firstTruthyRes (f : String → Except Halt (Option String)) :
    List String → Except Halt (Option String)
  | [] => .ok none
  | k :: ks =>
    match f k with
    | .error e => .error e
    | .ok v => if optTruthy v then .ok v else firstTruthyRes f ks

/-- Model of the UI-format `widgets_values` fallback (part_001 lines 63-70):
only consulted when the named input is absent and the graph is not API
format; returns the first string widget longer than five characters. -/
def widgetFallback (isApi : Bool) (node : Jv) (val : Jv) : Option String :=
  match val with
  | .undefined =>
    if isApi then none
    else
      match jsIndexGet node ("widgets_values") with
      | .arr xs =>
        xs.findSome? (fun v =>
          match v with
          | .str s => if s.data.length > 5 then some s else none
          | _ => none)
      | _ => none
  | _ => none

/-- Shallow embedding of `resolveInput` (src/unnamed/part_001 lines 55-115),
with explicit recursion fuel.  `.ok none` is the source's `null`,
`.error .exn` a propagating JavaScript exception, `.error .noFuel`
exhaustion of every finite recursion depth.  Note that the source's cycle
check reads `node.id`, not the node-map key of the node. -/
def resolveInputF (nodesMap : List (String × Jv)) (isApi : Bool) :
    Nat → Jv → String → List String → Except Halt (Option String)
  | 0, _, _, _ => .error .noFuel
  | fuel + 1, node, inputName, visited =>
    if !(jsTruthy node) then .ok none
    else if visited.contains (svKey (jsOrV (jsIndexGet node ("id")) (.str ("")))) then .ok none
    else
      let inputsv := jsIndexGet node ("inputs")
      let val := if jsTruthy inputsv then jsIndexGet inputsv inputName else .undefined
      match widgetFallback isApi node val with
      | some s => .ok (some s)
      | none =>
        match val with
        | .str s => .ok (some s)
        | .arr [sourceIdv, _slot] =>
          if !isApi then .ok none
          else
            let sourceNode := mapGet nodesMap (keyToString sourceIdv)
            if !(jsTruthy sourceNode) then .ok none
            else
              match firstTextKey sourceNode TEXT_INPUT_KEYS with
              | some s => .ok (some s)
              | none =>
                match jsToLower (jsOrV (jsIndexGet sourceNode ("class_type")) (.str (""))) with
                | .error e => .error e
                | .ok ty =>
                  let visited' := visAdd visited (svKey sourceIdv)
                  let passRes :=
                    if substrB ("reroute") ty || substrB ("primitive") ty ||
                        substrB ("node") ty || substrB ("pipe") ty || substrB ("bus") ty then
                      firstTruthyRes
                        (fun k => resolveInputF nodesMap isApi fuel sourceNode k visited')
                        (jsOwnKeys (jsOrV (jsIndexGet sourceNode ("inputs")) (.obj [])))
                    else .ok none
                  match passRes with
                  | .error e => .error e
                  | .ok (some s) => .ok (some s)
                  | .ok none =>
                    if substrB ("combine") ty || substrB ("concat") ty || substrB ("average") ty then
                      match jsOrRes (resolveInputF nodesMap isApi fuel sourceNode ("conditioning_1") visited')
                          (fun _ => jsOrRes (resolveInputF nodesMap isApi fuel sourceNode ("text_a") visited')
                            (fun _ => resolveInputF nodesMap isApi fuel sourceNode ("string_a") visited')) with
                      | .error e => .error e
                      | .ok p1 =>
                        match jsOrRes (resolveInputF nodesMap isApi fuel sourceNode ("conditioning_2") visited')
                            (fun _ => jsOrRes (resolveInputF nodesMap isApi fuel sourceNode ("text_b") visited')
                              (fun _ => resolveInputF nodesMap isApi fuel sourceNode ("string_b") visited')) with
                        | .error e => .error e
                        | .ok p2 =>
                          if optTruthy p1 && optTruthy p2 then
                            .ok (some ((p1.getD ("")) ++ ("\n\n") ++ (p2.getD (""))))
                          else .ok (if optTruthy p1 then p1 else p2)
                    else .ok none
        | _ => .ok none

/-- Lowercased `class_type` of a node, with the JavaScript throwing
behaviour of `(node.class_type || '').toLowerCase()` (part_001 line 89 /
line 121). -/
def classTypeLowerR (n : Jv) : Except Halt String :=
  match getF n ("class_type") with
  | .error e => .error e
  | .ok ct => jsToLower (jsOrV ct (.str ("")))

/-- The sampler-discovery predicate of part_001 line 123: `class_type`
contains `sampler` or `generate` and contains neither `save` nor `load`. -/
def samplerPredR (n : Jv) : Except Halt Bool :=
  match classTypeLowerR n with
  | .error e => .error e
  | .ok t =>
    .ok ((substrB ("sampler") t || substrB ("generate") t) &&
      !substrB ("save") t && !substrB ("load") t)

def filterMR (p : Jv → Except Halt Bool) : List Jv → Except Halt (List Jv)
  | [] => .ok []
  | x :: xs =>
    match p x with
    | .error e => .error e
    | .ok b =>
      match filterMR p xs with
      | .error e => .error e
      | .ok rest => .ok (if b then x :: rest else rest)

/-- `Object.values` over the node map. -/
def mapOwnValues (m : List (String × Jv)) : List Jv := jsOwnValues (.obj m)

/-- Sampler discovery (part_001 lines 120-124). -/
def samplersOfR (m : List (String × Jv)) : Except Halt (List Jv) :=
  filterMR samplerPredR (mapOwnValues m)

/-- The per-sampler prompt-assignment loop (part_001 lines 126-135):
first-found-wins for positive and for negative independently, early break
once both are non-empty. -/
def samplerLoopF (nodesMap : List (String × Jv)) (fuel : Nat) :
    List Jv → String → String → Except Halt (String × String)
  | [], p, n => .ok (p, n)
  | s :: rest, p, n =>
    match jsOrRes (resolveInputF nodesMap true fuel s ("positive") [])
        (fun _ => resolveInputF nodesMap true fuel s ("conditioning") []) with
    | .error e => .error e
    | .ok pos =>
      let p' := if optTruthy pos ∧ p = ("") then cleanText (pos.getD ("")) else p
      match resolveInputF nodesMap true fuel s ("negative") [] with
      | .error e => .error e
      | .ok neg =>
        let n' := if optTruthy neg ∧ n = ("") then cleanText (neg.getD ("")) else n
        if p' ≠ ("") ∧ n' ≠ ("") then .ok (p', n')
        else samplerLoopF nodesMap fuel rest p' n'

/-- The filter applied to strings found in a node's `inputs` during leaf
collection (part_001 line 144). -/
def leafInputOk (s : String) : Bool :=
  s.data.length > 3 && !substrB (".safetensors") s && !substrB (".pt") s && !substrB (".ckpt") s

/-- The filter applied to strings found in `widgets_values` during leaf
collection (part_001 line 153): note that only `.safetensors` is excluded
on this path. -/
def leafWidgetOk (s : String) : Bool :=
  s.data.length > 3 && !substrB (".safetensors") s

def leafStrsInputs (vs : List Jv) : List String :=
  vs.filterMap (fun v =>
    match v with
    | .str s => if leafInputOk s then some s else none
    | _ => none)

def leafStrsWidgets (vs : List Jv) : List String :=
  vs.filterMap (fun v =>
    match v with
    | .str s => if leafWidgetOk s then some s else none
    | _ => none)

/-- Leaf collection for one node (part_001 lines 139-158); reading
`node.inputs` of a `null` node entry throws.  (When the `inputs` read
succeeds the node is not `null`/`undefined`, so the subsequent
`widgets_values` read cannot throw and is written with the total
accessor.) -/
def collectNodeR (acc : List String) (node : Jv) : Except Halt (List String) :=
  match getF node ("inputs") with
  | .error e => .error e
  | .ok inputsv =>
    .ok (acc ++ (if jsTruthy inputsv then leafStrsInputs (jsOwnValues inputsv) else []) ++
      (match jsIndexGet node ("widgets_values") with
       | .arr xs => leafStrsWidgets xs
       | _ => []))

def collectLeavesR : List Jv → List String → Except Halt (List String)
  | [], acc => .ok acc
  | node :: rest, acc =>
    match collectNodeR acc node with
    | .error e => .error e
    | .ok acc' => collectLeavesR rest acc'

/-- The wrapper unwrap step (part_001 lines 17-29): when the value has no
truthy `nodes` field and is not an array, descend into a truthy non-array
object `prompt` field, else into a truthy object-typed `workflow` field. -/
def unwrapR (data : Jv) : Except Halt Jv :=
  match getF data ("nodes") with
  | .error e => .error e
  | .ok nodesv =>
    if !(jsTruthy nodesv) && !(isArrB data) then
      match getF data ("prompt") with
      | .error e => .error e
      | .ok pv =>
        if jsTruthy pv && typeofObjB pv && !(isArrB pv) then .ok pv
        else
          match getF data ("workflow") with
          | .error e => .error e
          | .ok wv => if jsTruthy wv && typeofObjB wv then .ok wv else .ok data
    else .ok data

/-- The UI-format node-map fold `nodesMap[node.id] = node`
(part_001 lines 38-40); reading `id` of a `null` entry throws. -/
def uiFoldR : List Jv → List (String × Jv) → Except Halt (List (String × Jv))
  | [], m => .ok m
  | node :: rest, m =>
    match getF node ("id") with
    | .error e => .error e
    | .ok idv => uiFoldR rest (upsert m (keyToString idv) node)

/-- The fields of a value used as its own node map in the API-format branch
(`nodesMap = data`); an array gets its index keys. -/
def fieldsOf : Jv → List (String × Jv)
  | .obj fs => fs
  | .arr xs => ((List.range xs.length).map natRepr).zip xs
  | _ => []

/-- Format classification and node-map construction
(part_001 lines 36-45): a truthy `nodes` array means UI format (map keyed
by each node's `id`), any other value of object type is API format with
itself as the map. -/
def buildMapR (u : Jv) : Except Halt (Bool × List (String × Jv)) :=
  match getF u ("nodes") with
  | .error e => .error e
  | .ok nodesv =>
    match nodesv with
    | .arr ns =>
      match uiFoldR ns [] with
      | .error e => .error e
      | .ok m => .ok (false, m)
    | _ => if typeofObjB u then .ok (true, fieldsOf u) else .ok (false, [])

structure ExtractOut where
  positive : String
  negative : String
  all : List String
deriving DecidableEq, Repr

/-- Shallow embedding of `extractPrompts` (src/unnamed/part_001
lines 14-163): unwrap, classify, sampler discovery and tracing (API format
only), leaf collection, first-occurrence de-duplication. -/
def extractPromptsF (fuel : Nat) (data : Jv) : Except Halt ExtractOut :=
  match unwrapR data with
  | .error e => .error e
  | .ok u =>
    match buildMapR u with
    | .error e => .error e
    | .ok (isApi, m) =>
      let pn : Except Halt (String × String) :=
        if isApi then
          match samplersOfR m with
          | .error e => .error e
          | .ok samplers => samplerLoopF m fuel samplers ("") ("")
        else .ok ((""), (""))
      match pn with
      | .error e => .error e
      | .ok (p, n) =>
        match collectLeavesR (mapOwnValues m) [] with
        | .error e => .error e
        | .ok all => .ok ⟨p, n, dedupFirst all⟩

/-!
PNG path (src/unnamed/part_001 lines 176-245).  The buffer is a byte list;
`DataView.getUint32` past the end and an out-of-range `Uint8Array` view
throw `RangeError`, modelled by `PErr.rangeError`.  The permissive UTF-8
decode is modelled per byte (exact on the ASCII inputs of interest).  The
external JSON parser (spec section 6 lists it as an external collaborator)
is a parameter `parse : String → Option Jv`.
-/

def strBytes (s : String) : List Nat := s.data.map Char.toNat

def decodeBytes (bs : List Nat) : String := String.mk (bs.map Char.ofNat)

/-- Big-endian 32-bit read; `none` models the `RangeError` thrown by
`DataView.prototype.getUint32` when fewer than four bytes remain. -/
def readU32 (buf : List Nat) (off : Nat) : Option Nat :=
  if off + 4 ≤ buf.length then
    some (buf.getD off 0 * 16777216 + buf.getD (off + 1) 0 * 65536 +
      buf.getD (off + 2) 0 * 256 + buf.getD (off + 3) 0)
  else none

/-- `ArrayBuffer.prototype.slice`, which clamps to the buffer bounds. -/
def sliceClamp (buf : List Nat) (a b : Nat) : List Nat := (buf.drop a).take (b - a)

/-- `new Uint8Array(buffer, off, len)`: throws `RangeError` when the view
does not fit in the buffer. -/
def u8view (buf : List Nat) (off len : Nat) : Option (List Nat) :=
  if off + len ≤ buf.length then some ((buf.drop off).take len) else none

/-- The `replace(/^[\x00-\x1F]+/, '')` cleanup of part_001 line 206. -/
def stripCtl (s : String) : String :=
  String.mk (s.data.dropWhile (fun c => c.toNat ≤ 31))

inductive PErr where
  | invalidSig : PErr
  | rangeError : PErr
  | noMetadata : PErr
  | fuelOut : PErr
  | resolver : Halt → PErr
deriving DecidableEq

structure PMeta where
  raw : String
  summary : List String
  positivePrompt : Option String
  negativePrompt : Option String
deriving DecidableEq

/-- The chunk-walk loop of `parsePNG` (part_001 lines 188-212): read a
4-byte big-endian length and 4-byte type at the cursor, collect the text of
`tEXt`/`iTXt` chunks whose keyword is `prompt` or `workflow`, advance by
`12 + length`.  The fuel argument only bounds the iteration count; callers
pass `buf.length + 1`, which every run stays below because the cursor
advances by at least 12. -/
def pngChunkWalkF : Nat → List Nat → Nat → List String → Except PErr (List String)
  | 0, _, _, _ => .error .fuelOut
  | f + 1, buf, offset, acc =>
    if offset < buf.length then
      match readU32 buf offset with
      | none => .error .rangeError
      | some len =>
        let ty := decodeBytes (sliceClamp buf (offset + 4) (offset + 8))
        if ty = ("tEXt") || ty = ("iTXt") then
          match u8view buf (offset + 8) len with
          | none => .error .rangeError
          | some chunkData =>
            match chunkData.findIdx? (fun b => b = 0) with
            | none => pngChunkWalkF f buf (offset + 12 + len) acc
            | some i =>
              let keyword := decodeBytes (chunkData.take i)
              if keyword = ("prompt") || keyword = ("workflow") then
                let clean := stripCtl (decodeBytes (chunkData.drop (i + 1)))
                pngChunkWalkF f buf (offset + 12 + len) (acc ++ [clean])
              else pngChunkWalkF f buf (offset + 12 + len) acc
        else pngChunkWalkF f buf (offset + 12 + len) acc
    else .ok acc

/-- Signature check plus chunk walk: the candidate chunk texts of a PNG
buffer (part_001 lines 181-212). -/
def pngCandidates (buf : List Nat) : Except PErr (List String) :=
  match readU32 buf 0 with
  | none => .error .rangeError
  | some magic =>
    if magic = 0x89504e47 then pngChunkWalkF (buf.length + 1) buf 8 []
    else .error .invalidSig

/-- The API-format preference predicate of part_001 lines 215-220: the text
parses, reading `nodes` of the result does not throw, the `nodes` property
is not truthy, and the result is not an array (a thrown access — e.g. on a
parsed `null` — is swallowed by the `catch` and yields `false`). -/
def apiPredB (parse : String → Option Jv) (t : String) : Bool :=
  match parse t with
  | none => false
  | some j =>
    match getF j ("nodes") with
    | .error _ => false
    | .ok nv => !(jsTruthy nv) && !(isArrB j)

/-- The fallback predicate of part_001 line 223: the trimmed text starts
with an opening brace. -/
def bracePredB (t : String) : Bool :=
  match (jsTrim t).data with
  | [] => false
  | c :: _ => c = Char.ofNat 123

/-- Raw-JSON candidate selection (part_001 lines 215-228). -/
def pngSelect (parse : String → Option Jv) (foundText : List String) : Except PErr String :=
  match foundText.find? (apiPredB parse) with
  | some t => .ok t
  | none =>
    match foundText.find? bracePredB with
    | some t => .ok t
    | none => .error .noMetadata

/-- Shallow embedding of `parsePNG` (part_001 lines 176-245), parameterised
by the external JSON parser and the resolver fuel. -/
def parsePNGF (parse : String → Option Jv) (fuel : Nat) (buf : List Nat) : Except PErr PMeta :=
  match pngCandidates buf with
  | .error e => .error e
  | .ok ft =>
    match pngSelect parse ft with
    | .error e => .error e
    | .ok rawJson =>
      match parse rawJson with
      | none => .ok ⟨rawJson, [], none, none⟩
      | some parsed =>
        match extractPromptsF fuel parsed with
        | .error h => .error (.resolver h)
        | .ok r => .ok ⟨rawJson, r.all, some r.positive, some r.negative⟩

/-!
MP4 path, size policy only (src/unnamed/part_001 lines 249-262): below the
full-scan limit the whole byte stream is decoded and scanned; at or above
it only a fixed window from the start and an equal window from the end are
decoded and concatenated.
-/

/-- `FILE_LIMIT_FOR_FULL_SCAN` (part_001 line 249): 100 MiB. -/
def FILE_LIMIT_FOR_FULL_SCAN : Nat := 100 * 1024 * 1024

/-- `SCAN_CHUNK_SIZE` (part_001 line 250): 20 MiB. -/
def SCAN_CHUNK_SIZE : Nat := 20 * 1024 * 1024

/-- The bytes `parseMP4` decodes and scans (part_001 lines 255-262). -/
def mp4ScanBytes (file : List Nat) : List Nat :=
  if file.length < FILE_LIMIT_FOR_FULL_SCAN then file
  else file.take SCAN_CHUNK_SIZE ++ file.drop (file.length - SCAN_CHUNK_SIZE)

/-- Modelled from the spec's words (claim C8 / spec section 4.2), for
comparison with `mp4ScanBytes`: a 50 MiB full-scan threshold and 15 MiB
windows. -/
def mp4ScanBytesClaim (file : List Nat) : List Nat :=
  if file.length < 50 * 1024 * 1024 then file
  else file.take (15 * 1024 * 1024) ++ file.drop (file.length - 15 * 1024 * 1024)

/-!
Concrete inputs used to settle the claims.
-/

def u32be (n : Nat) : List Nat :=
  [n / 16777216 % 256, n / 65536 % 256, n / 256 % 256, n % 256]

def pngSignature : List Nat := [137, 80, 78, 71, 13, 10, 26, 10]

/-- The exact API-format payload of claim C1 / spec section 8. -/
def c1Json : String :=
  "\x7b\"3\":\x7b\"class_type\":\"KSampler\",\"inputs\":\x7b\"positive\":[\"5\",0],\"negative\":[\"6\",0]\x7d\x7d,\"5\":\x7b\"class_type\":\"CLIPTextEncode\",\"inputs\":\x7b\"text\":\"a red fox\"\x7d\x7d,\"6\":\x7b\"class_type\":\"CLIPTextEncode\",\"inputs\":\x7b\"text\":\"blurry\"\x7d\x7d\x7d"

/-- The JSON value `c1Json` denotes. -/
def c1Graph : Jv := .obj [
  (("3"), .obj [(("class_type"), .str ("KSampler")),
    (("inputs"), .obj [(("positive"), .arr [.str ("5"), .num 0]),
      (("negative"), .arr [.str ("6"), .num 0])])]),
  (("5"), .obj [(("class_type"), .str ("CLIPTextEncode")),
    (("inputs"), .obj [(("text"), .str ("a red fox"))])]),
  (("6"), .obj [(("class_type"), .str ("CLIPTextEncode")),
    (("inputs"), .obj [(("text"), .str ("blurry"))])])]

def c1ChunkPayload : List Nat := strBytes ("prompt") ++ [0] ++ strBytes c1Json

/-- A well-formed PNG: signature, one `tEXt` chunk with keyword `prompt`
and payload `c1Json`, 4 CRC bytes. -/
def c1Buf : List Nat :=
  pngSignature ++ u32be c1ChunkPayload.length ++ strBytes ("tEXt") ++ c1ChunkPayload ++ [0, 0, 0, 0]

/-- A concrete JSON parser recognising exactly the C1 payload. -/
def c1Parse : String → Option Jv :=
  fun s => if s = c1Json then some c1Graph else none

/-- Claim C3's failing input: a valid 8-byte signature followed by a single
byte, i.e. a PNG truncated strictly after the signature, inside the first
chunk header. -/
def c3Buf : List Nat := pngSignature ++ [0]

/-- Claim C2's failing input: a two-node API-format cycle of `Reroute`
nodes (note API-format nodes carry no `id` field, exactly as ComfyUI
emits them). -/
def cycMap : List (String × Jv) := [
  (("A"), .obj [(("class_type"), .str ("Reroute")),
    (("inputs"), .obj [(("x"), .arr [.str ("B"), .num 0])])]),
  (("B"), .obj [(("class_type"), .str ("Reroute")),
    (("inputs"), .obj [(("y"), .arr [.str ("A"), .num 0])])])]

def cycNodeA : Jv := mapGet cycMap ("A")

def cycNodeB : Jv := mapGet cycMap ("B")

/-- Claim C4's failing input: an API-format graph with a `null` node
entry. -/
def c4Data : Jv := .obj [(("3"), Jv.null)]

/-- Claim C5's counterexample input: a UI-format graph whose only node
carries the widget string `model.ckpt`. -/
def c5Data : Jv := .obj [(("nodes"),
  .arr [.obj [(("id"), .num 1), (("widgets_values"), .arr [.str ("model.ckpt")])]])]

/-- Claim C6's counterexample input: a wrapper whose `nodes` field is a
truthy non-array (the number 5) next to an API-format graph under
`prompt`. -/
def c6PromptField : Jv := .obj [
  (("7"), .obj [(("class_type"), .str ("KSampler")),
    (("inputs"), .obj [(("positive"), .str ("hello there")),
      (("negative"), .str ("bad anatomy"))])])]

def c6Data : Jv := .obj [(("nodes"), .num 5), (("prompt"), c6PromptField)]

/-- Claim C7's scenario graph: a sampler fed by a `ConditioningCombine`
node whose `conditioning_1`/`conditioning_2` link to text nodes `foo` and
`bar`. -/
def c7Graph : Jv := .obj [
  (("1"), .obj [(("class_type"), .str ("KSampler")),
    (("inputs"), .obj [(("positive"), .arr [.str ("4"), .num 0])])]),
  (("4"), .obj [(("class_type"), .str ("ConditioningCombine")),
    (("inputs"), .obj [(("conditioning_1"), .arr [.str ("5"), .num 0]),
      (("conditioning_2"), .arr [.str ("6"), .num 0])])]),
  (("5"), .obj [(("class_type"), .str ("CLIPTextEncode")),
    (("inputs"), .obj [(("text"), .str ("foo"))])]),
  (("6"), .obj [(("class_type"), .str ("CLIPTextEncode")),
    (("inputs"), .obj [(("text"), .str ("bar"))])])]

def c7Map : List (String × Jv) := fieldsOf c7Graph

/-- The C7 variant in which only the first combiner branch is wired. -/
def c7GraphOne : Jv := .obj [
  (("1"), .obj [(("class_type"), .str ("KSampler")),
    (("inputs"), .obj [(("positive"), .arr [.str ("4"), .num 0])])]),
  (("4"), .obj [(("class_type"), .str ("ConditioningCombine")),
    (("inputs"), .obj [(("conditioning_1"), .arr [.str ("5"), .num 0])])]),
  (("5"), .obj [(("class_type"), .str ("CLIPTextEncode")),
    (("inputs"), .obj [(("text"), .str ("foo"))])])]

def c7MapOne : List (String × Jv) := fieldsOf c7GraphOne

/-- Claim C9's counterexample node: `class_type` contains both `sampler`
and `image`. -/
def c9Node : Jv := .obj [(("class_type"), .str ("ImageSampler")),
  (("inputs"), .obj [(("positive"), .str ("beautiful painting"))])]

def c9Data : Jv := .obj [(("1"), c9Node)]

/-- Claim C10's counterexample chunk texts: the first has a falsy `nodes`
key, the second has no `nodes` key at all. -/
def c10s1 : String := "\x7b\"nodes\":0\x7d"

def c10s2 : String := "\x7b\"a\":1\x7d"

def c10Parse : String → Option Jv :=
  fun s =>
    if s = c10s1 then some (.obj [(("nodes"), .num 0)])
    else if s = c10s2 then some (.obj [(("a"), .num 1)])
    else none

def hasKeyB (j : Jv) (k : String) : Bool :=
  match j with
  | .obj fs => fs.any (fun p => p.1 = k)
  | _ => false

/-- Modelled from the claim's words (C10): prefer the first chunk text
that parses as JSON with no `nodes` *key* and is not an array. -/
def claimApiPredB (parse : String → Option Jv) (t : String) : Bool :=
  match parse t with
  | none => false
  | some j => !(hasKeyB j ("nodes")) && !(isArrB j)

/-- Modelled from the claim's words (C10): the selection with the no-key
reading of the preference predicate. -/
def pngSelectClaim (parse : String → Option Jv) (foundText : List String) : Except PErr String :=
  match foundText.find? (claimApiPredB parse) with
  | some t => .ok t
  | none =>
    match foundText.find? bracePredB with
    | some t => .ok t
    | none => .error .noMetadata

def endsWithB (pat s : String) : Bool :=
  listPrefixB pat.data.reverse s.data.reverse

/-- A PNG whose only `prompt` chunk text starts with a brace but is not
valid JSON (used to exercise the fallback selection and the
degraded-result path). -/
def c10Buf : List Nat :=
  pngSignature ++ u32be 9 ++ strBytes ("tEXt") ++ strBytes ("prompt") ++ [0] ++
    strBytes ("\x7bx") ++ [0, 0, 0, 0]

/-!
Supporting lemmas.
-/

theorem dedupFirstAux_mem : ∀ (l seen : List String) (s : String),
    s ∈ dedupFirstAux seen l → s ∈ l ∧ s ∉ seen := by
  intro l
  induction l with
  | nil => intro seen s h; simp [dedupFirstAux] at h
  | cons x xs ih =>
    intro seen s h
    rw [dedupFirstAux] at h
    by_cases hx : x ∈ seen
    · rw [if_pos hx] at h
      obtain ⟨h1, h2⟩ := ih seen s h
      exact ⟨List.mem_cons_of_mem _ h1, h2⟩
    · rw [if_neg hx] at h
      rcases List.mem_cons.mp h with rfl | h'
      · exact ⟨List.mem_cons_self _ _, hx⟩
      · obtain ⟨h1, h2⟩ := ih (x :: seen) s h'
        exact ⟨List.mem_cons_of_mem _ h1, fun hs => h2 (List.mem_cons_of_mem _ hs)⟩

theorem dedupFirstAux_nodup : ∀ (l seen : List String), (dedupFirstAux seen l).Nodup := by
  intro l
  induction l with
  | nil => intro seen; simp [dedupFirstAux]
  | cons x xs ih =>
    intro seen
    rw [dedupFirstAux]
    by_cases hx : x ∈ seen
    · rw [if_pos hx]; exact ih seen
    · rw [if_neg hx]
      refine List.nodup_cons.mpr ⟨?_, ih (x :: seen)⟩
      intro hmem
      exact (dedupFirstAux_mem _ _ _ hmem).2 (List.mem_cons_self _ _)

theorem dedupFirst_nodup (l : List String) : (dedupFirst l).Nodup :=
  dedupFirstAux_nodup l []

theorem dedupFirst_subset (l : List String) (s : String) (h : s ∈ dedupFirst l) : s ∈ l :=
  (dedupFirstAux_mem l [] s h).1

/-- The global part of the leaf filter: every collected string is longer
than three characters and does not contain `.safetensors`. -/
def goodLeaf (s : String) : Prop := 3 < s.data.length ∧ substrB (".safetensors") s = false

theorem leafStrsInputs_good : ∀ (vs : List Jv) (s : String), s ∈ leafStrsInputs vs → goodLeaf s := by
  intro vs s h
  rw [leafStrsInputs] at h
  obtain ⟨v, hv, hf⟩ := List.mem_filterMap.mp h
  cases v <;> simp only [] at hf
  case str s' =>
    by_cases hok : leafInputOk s' = true
    · rw [if_pos hok] at hf
      injection hf with hf
      subst hf
      simp only [leafInputOk, Bool.and_eq_true, decide_eq_true_eq, Bool.not_eq_true'] at hok
      exact ⟨hok.1.1.1, hok.1.1.2⟩
    · rw [if_neg (by simpa using hok)] at hf
      exact absurd hf (by simp)
  all_goals exact absurd hf (by simp)

theorem leafStrsWidgets_good : ∀ (vs : List Jv) (s : String), s ∈ leafStrsWidgets vs → goodLeaf s := by
  intro vs s h
  rw [leafStrsWidgets] at h
  obtain ⟨v, hv, hf⟩ := List.mem_filterMap.mp h
  cases v <;> simp only [] at hf
  case str s' =>
    by_cases hok : leafWidgetOk s' = true
    · rw [if_pos hok] at hf
      injection hf with hf
      subst hf
      simp only [leafWidgetOk, Bool.and_eq_true, decide_eq_true_eq, Bool.not_eq_true'] at hok
      exact ⟨hok.1, hok.2⟩
    · rw [if_neg (by simpa using hok)] at hf
      exact absurd hf (by simp)
  all_goals exact absurd hf (by simp)

theorem collectNodeR_good : ∀ (acc : List String) (node : Jv) (out : List String),
    collectNodeR acc node = .ok out → (∀ s ∈ acc, goodLeaf s) → ∀ s ∈ out, goodLeaf s := by
  intro acc node out h hacc s hs
  rw [collectNodeR] at h
  split at h
  · exact Except.noConfusion h
  · injection h with h
    subst h
    rcases List.mem_append.mp hs with hm | hm
    · rcases List.mem_append.mp hm with hm' | hm'
      · exact hacc s hm'
      · split at hm'
        · exact leafStrsInputs_good _ s hm'
        · exact absurd hm' (by simp)
    · split at hm
      · exact leafStrsWidgets_good _ s hm
      · exact absurd hm (by simp)

theorem collectLeavesR_good : ∀ (nodes : List Jv) (acc out : List String),
    collectLeavesR nodes acc = .ok out → (∀ s ∈ acc, goodLeaf s) → ∀ s ∈ out, goodLeaf s := by
  intro nodes
  induction nodes with
  | nil =>
    intro acc out h hacc
    rw [collectLeavesR] at h
    injection h with h
    subst h
    exact hacc
  | cons node rest ih =>
    intro acc out h hacc
    rw [collectLeavesR] at h
    split at h
    · exact Except.noConfusion h
    · exact ih _ out h (collectNodeR_good acc node _ (by assumption) hacc)

theorem filterMR_mem : ∀ (p : Jv → Except Halt Bool) (xs l : List Jv),
    filterMR p xs = .ok l → ∀ x, x ∈ l ↔ x ∈ xs ∧ p x = .ok true := by
  intro p xs
  induction xs with
  | nil =>
    intro l h x
    rw [filterMR] at h
    injection h with h
    subst h
    simp
  | cons y ys ih =>
    intro l h x
    cases hpy : p y with
    | error e =>
      rw [filterMR, hpy] at h
      exact Except.noConfusion h
    | ok b =>
      cases hrest : filterMR p ys with
      | error e =>
        rw [filterMR, hpy, hrest] at h
        exact Except.noConfusion h
      | ok rest =>
        rw [filterMR, hpy, hrest] at h
        injection h with h
        subst h
        have ihx := ih rest hrest x
        cases b with
        | false =>
          simp only [Bool.false_eq_true, if_false]
          rw [ihx]
          constructor
          · rintro ⟨hxy, hpx⟩
            exact ⟨List.mem_cons_of_mem _ hxy, hpx⟩
          · rintro ⟨hmem, hpx⟩
            rcases List.mem_cons.mp hmem with rfl | hmem'
            · have hcontra := hpy.symm.trans hpx
              injection hcontra with hb
              exact absurd hb (by simp)
            · exact ⟨hmem', hpx⟩
        | true =>
          simp only [if_true]
          constructor
          · intro hx
            rcases List.mem_cons.mp hx with rfl | hx'
            · exact ⟨List.mem_cons_self _ _, hpy⟩
            · obtain ⟨h1, h2⟩ := ihx.mp hx'
              exact ⟨List.mem_cons_of_mem _ h1, h2⟩
          · rintro ⟨hmem, hpx⟩
            rcases List.mem_cons.mp hmem with rfl | hmem'
            · exact List.mem_cons_self _ _
            · exact List.mem_cons_of_mem _ (ihx.mpr ⟨hmem', hpx⟩)

theorem samplerPredR_true_iff (n : Jv) : samplerPredR n = .ok true ↔
    ∃ t, classTypeLowerR n = .ok t ∧
      ((substrB ("sampler") t || substrB ("generate") t) &&
        !substrB ("save") t && !substrB ("load") t) = true := by
  rw [samplerPredR]
  cases hct : classTypeLowerR n with
  | error e => simp
  | ok t => simp

set_option maxRecDepth 40000 in
theorem pngCandidates_c1 : pngCandidates c1Buf = .ok [c1Json] := rfl

/-!
Claim theorems.
-/

/-- Claim C1: for a PNG whose `tEXt` chunk has keyword `prompt` and the
API-format payload of the claim, the extraction pipeline (`parsePNGF`,
i.e. `parsePNG` followed by `extractPrompts`) returns
`positivePrompt = "a red fox"` and `negativePrompt = "blurry"` (and the
payload itself as the raw JSON).  The external JSON parser is any function
mapping the payload text to its JSON value. -/
theorem c1_end_to_end (parse : String → Option Jv) (hp : parse c1Json = some c1Graph) :
    parsePNGF parse 20 c1Buf =
      .ok ⟨c1Json, [("a red fox"), ("blurry")], some ("a red fox"), some ("blurry")⟩ := by
  have hpred : apiPredB parse c1Json = true := by
    unfold apiPredB
    rw [hp]
    rfl
  have hsel : pngSelect parse [c1Json] = .ok c1Json := by
    simp [pngSelect, List.find?, hpred]
  simp only [parsePNGF, pngCandidates_c1, hsel, hp]
  rfl

set_option maxRecDepth 40000 in
/-- Witness for C1 at the concrete parser `c1Parse`. -/
theorem c1_end_to_end_witness :
    c1Parse c1Json = some c1Graph ∧
    parsePNGF c1Parse 20 c1Buf =
      .ok ⟨c1Json, [("a red fox"), ("blurry")], some ("a red fox"), some ("blurry")⟩ :=
  ⟨rfl, c1_end_to_end c1Parse rfl⟩

/-- Claim C2 (code bug): on the two-`Reroute` API-format cycle `cycMap`,
`resolveInput` never completes at any recursion depth — the call entering
the cycle (and the three recursive states it reaches) exhausts every
finite fuel, because the cycle check tests `node.id`, which API-format
nodes do not carry, so the visited set never fires.  The claim's promised
behaviour (terminate and return "no value") is therefore false on the
code: the source recurses until the JavaScript stack overflows. -/
theorem c2_cycle_divergence : ∀ fuel : Nat,
    resolveInputF cycMap true fuel cycNodeA ("x") [] = .error .noFuel ∧
    resolveInputF cycMap true fuel cycNodeB ("y") [("s:B")] = .error .noFuel ∧
    resolveInputF cycMap true fuel cycNodeA ("x") [("s:B"), ("s:A")] = .error .noFuel ∧
    resolveInputF cycMap true fuel cycNodeB ("y") [("s:B"), ("s:A")] = .error .noFuel := by
  intro fuel
  induction fuel with
  | zero => exact ⟨rfl, rfl, rfl, rfl⟩
  | succ f ih =>
    obtain ⟨ih1, ih2, ih3, ih4⟩ := ih
    have step1 : resolveInputF cycMap true (f + 1) cycNodeA ("x") [] =
        (match (match resolveInputF cycMap true f cycNodeB ("y") [("s:B")] with
                | .error e => (.error e : Except Halt (Option String))
                | .ok v => if optTruthy v then .ok v else .ok none) with
         | .error e => (.error e : Except Halt (Option String))
         | .ok (some s) => .ok (some s)
         | .ok none => .ok none) := rfl
    have step2 : resolveInputF cycMap true (f + 1) cycNodeB ("y") [("s:B")] =
        (match (match resolveInputF cycMap true f cycNodeA ("x") [("s:B"), ("s:A")] with
                | .error e => (.error e : Except Halt (Option String))
                | .ok v => if optTruthy v then .ok v else .ok none) with
         | .error e => (.error e : Except Halt (Option String))
         | .ok (some s) => .ok (some s)
         | .ok none => .ok none) := rfl
    have step3 : resolveInputF cycMap true (f + 1) cycNodeA ("x") [("s:B"), ("s:A")] =
        (match (match resolveInputF cycMap true f cycNodeB ("y") [("s:B"), ("s:A")] with
                | .error e => (.error e : Except Halt (Option String))
                | .ok v => if optTruthy v then .ok v else .ok none) with
         | .error e => (.error e : Except Halt (Option String))
         | .ok (some s) => .ok (some s)
         | .ok none => .ok none) := rfl
    have step4 : resolveInputF cycMap true (f + 1) cycNodeB ("y") [("s:B"), ("s:A")] =
        (match (match resolveInputF cycMap true f cycNodeA ("x") [("s:B"), ("s:A")] with
                | .error e => (.error e : Except Halt (Option String))
                | .ok v => if optTruthy v then .ok v else .ok none) with
         | .error e => (.error e : Except Halt (Option String))
         | .ok (some s) => .ok (some s)
         | .ok none => .ok none) := rfl
    refine ⟨?_, ?_, ?_, ?_⟩
    · rw [step1, ih2]
    · rw [step2, ih3]
    · rw [step3, ih4]
    · rw [step4, ih3]

/-- Claim C3 (code bug): on a PNG truncated strictly after the signature
(9 bytes: valid signature plus one byte), the chunk walk attempts a 4-byte
length read past the buffer end, which the source leaves uncaught — it
surfaces as a `RangeError`, not a partial result and not a classified
truncation error.  This holds for every parser and every fuel. -/
theorem c3_truncation_range_error : ∀ (parse : String → Option Jv) (fuel : Nat),
    parsePNGF parse fuel c3Buf = .error .rangeError := by
  intro parse fuel
  rfl

/-- Claim C4 (code bug): the resolver does raise on a `null` node entry —
`extractPrompts` on the graph `{"3": null}` throws a `TypeError` when
the sampler filter reads `class_type` of `null`, at every fuel. -/
theorem c4_null_node_throws : ∀ fuel : Nat, extractPromptsF fuel c4Data = .error .exn := by
  intro fuel
  rfl

/-- Claim C5 counterexample: a UI-format node with widget string
`model.ckpt` puts `model.ckpt` — which ends in `.ckpt` — into
`allTextLeaves`, because the widgets path only filters `.safetensors`. -/
theorem c5_widget_ckpt_cex :
    extractPromptsF 20 c5Data = .ok ⟨(""), (""), [("model.ckpt")]⟩ ∧
    endsWithB (".ckpt") ("model.ckpt") = true := ⟨rfl, rfl⟩

/-- Claim C5 as amended: for every graph, when `extractPrompts` returns,
`allTextLeaves` is duplicate-free and every element is longer than three
characters and does not contain `.safetensors` (in particular none ends in
it); the `.pt`/`.ckpt` exclusions hold only on the inputs path. -/
theorem c5_leaf_invariant : ∀ (fuel : Nat) (data : Jv) (r : ExtractOut),
    extractPromptsF fuel data = .ok r →
    r.all.Nodup ∧ ∀ s ∈ r.all, 3 < s.data.length ∧ substrB (".safetensors") s = false := by
  intro fuel data r h
  simp only [extractPromptsF] at h
  split at h
  · exact Except.noConfusion h
  · split at h
    · exact Except.noConfusion h
    · split at h
      · exact Except.noConfusion h
      · split at h
        · exact Except.noConfusion h
        · injection h with h
          subst h
          refine ⟨dedupFirst_nodup _, ?_⟩
          intro s hs
          exact collectLeavesR_good _ _ _ (by assumption) (by simp) s (dedupFirst_subset _ s hs)

/-- Witness for C5 at the empty graph. -/
theorem c5_leaf_invariant_witness :
    extractPromptsF 1 (.obj []) = .ok ⟨(""), (""), []⟩ ∧
    ([] : List String).Nodup := by
  refine ⟨rfl, ?_⟩
  exact (c5_leaf_invariant 1 (.obj []) ⟨(""), (""), []⟩ rfl).1

/-- Claim C6 counterexample: a wrapper whose `nodes` field is the truthy
non-array `5` satisfies the claim's conditions ("no `nodes` array", not an
array, `prompt` object field present), yet the code does not descend into
`prompt` — it keeps the wrapper and extracts nothing, where descending
would have produced `positive = "hello there"`. -/
theorem c6_truthy_nodes_cex :
    isArrB (jsIndexGet c6Data ("nodes")) = false ∧
    isArrB c6Data = false ∧
    typeofObjB (jsIndexGet c6Data ("prompt")) = true ∧
    unwrapR c6Data = .ok c6Data ∧
    extractPromptsF 20 c6Data = .ok ⟨(""), (""), []⟩ ∧
    extractPromptsF 20 c6PromptField =
      .ok ⟨("hello there"), ("bad anatomy"), [("hello there"), ("bad anatomy")]⟩ :=
  ⟨rfl, rfl, rfl, rfl, rfl, rfl⟩

/-- Claim C6 as amended: the unwrap step descends into `prompt` when the
top-level value has no *truthy* `nodes` property, is not an array, and its
`prompt` field is a truthy non-array object; otherwise into a truthy
object-typed `workflow` field; classification then treats a `nodes`
array as UI format (map keyed by each node's `id`) and any other object
as API format with the object itself as the node map. -/
theorem c6_unwrap_classify :
    (∀ (data nv p : Jv), getF data ("nodes") = .ok nv → jsTruthy nv = false →
      isArrB data = false → getF data ("prompt") = .ok p →
      (jsTruthy p && typeofObjB p && !(isArrB p)) = true → unwrapR data = .ok p) ∧
    (∀ (data nv p w : Jv), getF data ("nodes") = .ok nv → jsTruthy nv = false →
      isArrB data = false → getF data ("prompt") = .ok p →
      (jsTruthy p && typeofObjB p && !(isArrB p)) = false →
      getF data ("workflow") = .ok w → (jsTruthy w && typeofObjB w) = true →
      unwrapR data = .ok w) ∧
    (∀ (u : Jv) (ns : List Jv) (m : List (String × Jv)),
      getF u ("nodes") = .ok (.arr ns) → uiFoldR ns [] = .ok m →
      buildMapR u = .ok (false, m)) ∧
    (∀ (fs : List (String × Jv)) (nv : Jv), getF (.obj fs) ("nodes") = .ok nv →
      (jsTruthy nv && isArrB nv) = false → buildMapR (.obj fs) = .ok (true, fs)) := by
  refine ⟨?_, ?_, ?_, ?_⟩
  · intro data nv p h1 h2 h3 h4 h5
    simp only [unwrapR, h1, h2, h3, h4, Bool.not_false, Bool.and_self, if_true]
    simp [h5]
  · intro data nv p w h1 h2 h3 h4 h5 h6 h7
    simp only [unwrapR, h1, h2, h3, h4, h6, Bool.not_false, Bool.and_self, if_true]
    simp [h5, h7]
  · intro u ns m h1 h2
    simp [buildMapR, h1, h2]
  · intro fs nv h1 h2
    cases nv <;> simp_all [buildMapR, typeofObjB, fieldsOf, jsTruthy, isArrB]

/-- Witness for C6: each conjunct applied at a concrete input. -/
theorem c6_unwrap_classify_witness :
    unwrapR (.obj [(("prompt"), .obj [])]) = .ok (.obj []) ∧
    unwrapR (.obj [(("workflow"), .obj [])]) = .ok (.obj []) ∧
    buildMapR (.obj [(("nodes"), .arr [])]) = .ok (false, []) ∧
    buildMapR (.obj [(("a"), .num 1)]) = .ok (true, [(("a"), .num 1)]) := by
  refine ⟨?_, ?_, ?_, ?_⟩
  · exact c6_unwrap_classify.1 (.obj [(("prompt"), .obj [])]) .undefined (.obj []) rfl rfl rfl rfl rfl
  · exact c6_unwrap_classify.2.1 (.obj [(("workflow"), .obj [])]) .undefined .undefined (.obj [])
      rfl rfl rfl rfl rfl rfl rfl
  · exact c6_unwrap_classify.2.2.1 (.obj [(("nodes"), .arr [])]) [] [] rfl rfl
  · exact c6_unwrap_classify.2.2.2 [(("a"), .num 1)] .undefined rfl rfl

/-- Claim C7: with text nodes `foo` and `bar` feeding a
`ConditioningCombine` node via `conditioning_1`/`conditioning_2`,
resolving the edge into the combiner yields `"foo\n\nbar"`; when only the
first branch is wired, `"foo"` alone is returned; end to end the positive
prompt is the concatenation. -/
theorem c7_combiner_concat :
    resolveInputF c7Map true 20 (mapGet c7Map ("1")) ("positive") [] =
      .ok (some ("foo\n\nbar")) ∧
    resolveInputF c7MapOne true 20 (mapGet c7MapOne ("1")) ("positive") [] =
      .ok (some ("foo")) ∧
    extractPromptsF 20 c7Graph = .ok ⟨("foo\n\nbar"), (""), []⟩ := ⟨rfl, rfl, rfl⟩

/-- Claim C8 counterexample: a 60 MiB input is at or above the claim's
50 MiB threshold, so the claim says only two 15 MiB windows (30 MiB) are
scanned; the code's threshold is 100 MiB, so it scans all 60 MiB. -/
theorem c8_threshold_cex :
    (mp4ScanBytes (List.replicate 62914560 0)).length = 62914560 ∧
    (mp4ScanBytesClaim (List.replicate 62914560 0)).length = 31457280 ∧
    (62914560 : Nat) ≠ 31457280 := by
  refine ⟨?_, ?_, by norm_num⟩
  · rw [mp4ScanBytes, if_pos] <;> norm_num [FILE_LIMIT_FOR_FULL_SCAN]
  · rw [mp4ScanBytesClaim, if_neg] <;> norm_num

/-- Claim C8 as amended (thresholds 100 MiB / 20 MiB): below the full-scan
limit the whole stream is scanned; at or above it the scan consists of the
20 MiB head window followed by the 20 MiB tail window, so any byte value
occurring only strictly inside the middle is never scanned while the head
window is preserved verbatim. -/
theorem c8_scan_policy : ∀ f : List Nat,
    (f.length < FILE_LIMIT_FOR_FULL_SCAN → mp4ScanBytes f = f) ∧
    (FILE_LIMIT_FOR_FULL_SCAN ≤ f.length →
      (mp4ScanBytes f).take SCAN_CHUNK_SIZE = f.take SCAN_CHUNK_SIZE ∧
      ∀ b : Nat, (∀ i, f.get? i = some b → SCAN_CHUNK_SIZE ≤ i ∧ i + SCAN_CHUNK_SIZE < f.length) →
        b ∉ mp4ScanBytes f) := by
  intro f
  constructor
  · intro h
    simp [mp4ScanBytes, h]
  · intro h
    have hnlt : ¬ f.length < FILE_LIMIT_FOR_FULL_SCAN := not_lt.mpr h
    have hscan : mp4ScanBytes f = f.take SCAN_CHUNK_SIZE ++ f.drop (f.length - SCAN_CHUNK_SIZE) := by
      simp [mp4ScanBytes, hnlt]
    have hC : SCAN_CHUNK_SIZE ≤ f.length := by
      refine le_trans ?_ h
      norm_num [SCAN_CHUNK_SIZE, FILE_LIMIT_FOR_FULL_SCAN]
    have hlen : (f.take SCAN_CHUNK_SIZE).length = SCAN_CHUNK_SIZE := by
      rw [List.length_take]
      exact min_eq_left hC
    constructor
    · rw [hscan]
      exact List.take_left' hlen
    · intro b hb hmem
      rw [hscan] at hmem
      rcases List.mem_append.mp hmem with hm | hm
      · obtain ⟨i, hi⟩ := List.mem_iff_get?.mp hm
        have hilt : i < SCAN_CHUNK_SIZE := by
          have h2 := List.get?_eq_some.mp hi
          obtain ⟨hlt, _⟩ := h2
          omega
        rw [List.get?_eq_getElem?, List.getElem?_take_of_lt hilt, ← List.get?_eq_getElem?] at hi
        have := (hb i hi).1
        omega
      · obtain ⟨i, hi⟩ := List.mem_iff_get?.mp hm
        rw [List.get?_eq_getElem?, List.getElem?_drop, ← List.get?_eq_getElem?] at hi
        have h3 := hb _ hi
        omega

/-- Witness for C8: a small list is fully scanned; the byte 1, absent from
an all-zero at-threshold file, is not in its scan. -/
theorem c8_scan_policy_witness :
    mp4ScanBytes [1, 2, 3] = [1, 2, 3] ∧
    1 ∉ mp4ScanBytes (List.replicate FILE_LIMIT_FOR_FULL_SCAN 0) := by
  constructor
  · exact (c8_scan_policy [1, 2, 3]).1 (by norm_num [FILE_LIMIT_FOR_FULL_SCAN])
  · have hlen : FILE_LIMIT_FOR_FULL_SCAN ≤
        (List.replicate FILE_LIMIT_FOR_FULL_SCAN (0 : Nat)).length := by
      simp
    refine ((c8_scan_policy (List.replicate FILE_LIMIT_FOR_FULL_SCAN 0)).2 hlen).2 1 ?_
    intro i hi
    exfalso
    have hmem := List.get?_mem hi
    have h0 := List.eq_of_mem_replicate hmem
    exact absurd h0 (by norm_num)

/-- Claim C9 counterexample: the node `ImageSampler`, whose lowercased
`class_type` contains `image`, is selected as a sampler candidate
(`samplerPredR` is true — the code excludes only `save` and `load`) and
its prompt resolution runs and sets the positive prompt. -/
theorem c9_image_sampler_cex :
    extractPromptsF 20 c9Data = .ok ⟨("beautiful painting"), (""), [("beautiful painting")]⟩ ∧
    classTypeLowerR c9Node = .ok ("imagesampler") ∧
    substrB ("image") ("imagesampler") = true ∧
    samplerPredR c9Node = .ok true := ⟨rfl, rfl, rfl, rfl⟩

/-- Claim C9 as amended: the sampler candidates are exactly the node-map
values whose lowercased `class_type` contains `sampler` or `generate` and
contains neither `save` nor `load` (no `image` exclusion); when the graph
classifies as UI format, sampler discovery is skipped and both prompts
stay empty. -/
theorem c9_sampler_discovery :
    (∀ (m : List (String × Jv)) (l : List Jv), samplersOfR m = .ok l →
      ∀ n, n ∈ l ↔ n ∈ mapOwnValues m ∧ ∃ t, classTypeLowerR n = .ok t ∧
        ((substrB ("sampler") t || substrB ("generate") t) &&
          !substrB ("save") t && !substrB ("load") t) = true) ∧
    (∀ (fuel : Nat) (data u : Jv) (m : List (String × Jv)) (r : ExtractOut),
      unwrapR data = .ok u → buildMapR u = .ok (false, m) →
      extractPromptsF fuel data = .ok r → r.positive = ("") ∧ r.negative = ("")) := by
  constructor
  · intro m l h n
    rw [samplersOfR] at h
    rw [filterMR_mem samplerPredR _ l h n, samplerPredR_true_iff]
  · intro fuel data u m r h1 h2 h3
    simp only [extractPromptsF, h1, h2, Bool.false_eq_true, if_false] at h3
    split at h3
    · exact Except.noConfusion h3
    · injection h3 with h3
      subst h3
      exact ⟨rfl, rfl⟩

/-- Witness for C9: the characterization applied to the `ImageSampler`
singleton map, and the UI-skip conjunct at the empty UI graph. -/
theorem c9_sampler_discovery_witness :
    (c9Node ∈ [c9Node] ↔ c9Node ∈ mapOwnValues (fieldsOf c9Data) ∧
      ∃ t, classTypeLowerR c9Node = .ok t ∧
        ((substrB ("sampler") t || substrB ("generate") t) &&
          !substrB ("save") t && !substrB ("load") t) = true) ∧
    ((⟨(""), (""), []⟩ : ExtractOut).positive = ("") ∧
      (⟨(""), (""), []⟩ : ExtractOut).negative = ("")) := by
  constructor
  · exact c9_sampler_discovery.1 (fieldsOf c9Data) [c9Node] rfl c9Node
  · exact c9_sampler_discovery.2 1 (.obj [(("nodes"), .arr [])]) (.obj [(("nodes"), .arr [])])
      [] ⟨(""), (""), []⟩ rfl rfl rfl

/-- Claim C10 counterexample: with chunk texts `{"nodes":0}` and
`{"a":1}`, the code selects the first (its `nodes` property is falsy),
while the claim's "no `nodes` key" reading selects the second. -/
theorem c10_truthy_pred_cex :
    pngSelect c10Parse [c10s1, c10s2] = .ok c10s1 ∧
    pngSelectClaim c10Parse [c10s1, c10s2] = .ok c10s2 ∧
    c10s1 ≠ c10s2 := ⟨rfl, rfl, by decide⟩

/-- Claim C10 as amended: the preferred candidate is the first chunk text
that parses to a value whose `nodes` property reads without throwing and
is not truthy and that is not an array; only if no text passes that test
is the first text whose trimmed form starts with `{` chosen, and with no
candidate at all the path fails with the no-metadata error; a successful
parse then returns the selected text as the raw JSON. -/
theorem c10_selection :
    (∀ (parse : String → Option Jv) (t : String), apiPredB parse t = true ↔
      ∃ j nv, parse t = some j ∧ getF j ("nodes") = .ok nv ∧
        jsTruthy nv = false ∧ isArrB j = false) ∧
    (∀ (parse : String → Option Jv) (ft : List String) (t : String),
      ft.find? (apiPredB parse) = some t → pngSelect parse ft = .ok t) ∧
    (∀ (parse : String → Option Jv) (ft : List String) (t : String),
      ft.find? (apiPredB parse) = none → ft.find? bracePredB = some t →
      pngSelect parse ft = .ok t) ∧
    (∀ (parse : String → Option Jv) (ft : List String),
      ft.find? (apiPredB parse) = none → ft.find? bracePredB = none →
      pngSelect parse ft = .error .noMetadata) ∧
    (∀ (parse : String → Option Jv) (fuel : Nat) (buf : List Nat)
      (ft : List String) (t : String) (r : PMeta),
      pngCandidates buf = .ok ft → pngSelect parse ft = .ok t →
      parsePNGF parse fuel buf = .ok r → r.raw = t) := by
  refine ⟨?_, ?_, ?_, ?_, ?_⟩
  · intro parse t
    rw [apiPredB]
    cases hp : parse t with
    | none => simp
    | some j =>
      cases hn : getF j ("nodes") with
      | error e => simp [hn]
      | ok nv => simp [hn, Bool.and_eq_true, Bool.not_eq_true']
  · intro parse ft t h
    rw [pngSelect, h]
  · intro parse ft t h1 h2
    simp only [pngSelect, h1, h2]
  · intro parse ft h1 h2
    simp only [pngSelect, h1, h2]
  · intro parse fuel buf ft t r h1 h2 h3
    simp only [parsePNGF, h1, h2] at h3
    split at h3
    · injection h3 with h3
      subst h3
      rfl
    · split at h3
      · exact Except.noConfusion h3
      · injection h3 with h3
        subst h3
        rfl

/-- Witness for C10: the predicate characterization at `c10Parse`, the
selection tiers at singleton candidate lists, and the raw-JSON passthrough
on the malformed-JSON degraded path of `c10Buf`. -/
theorem c10_selection_witness :
    (apiPredB c10Parse c10s2 = true ↔
      ∃ j nv, c10Parse c10s2 = some j ∧ getF j ("nodes") = .ok nv ∧
        jsTruthy nv = false ∧ isArrB j = false) ∧
    pngSelect c10Parse [c10s1] = .ok c10s1 ∧
    pngSelect c10Parse [("nope")] = .error .noMetadata ∧
    (⟨("\x7bx"), [], none, none⟩ : PMeta).raw = ("\x7bx") := by
  refine ⟨c10_selection.1 c10Parse c10s2, ?_, ?_, ?_⟩
  · exact c10_selection.2.1 c10Parse [c10s1] c10s1 rfl
  · exact c10_selection.2.2.2.1 c10Parse [("nope")] rfl rfl
  · exact c10_selection.2.2.2.2 (fun _ => none) 1 c10Buf [("\x7bx")] ("\x7bx")
      ⟨("\x7bx"), [], none, none⟩ rfl rfl rfl
